import Mathlib

/-!
Verification development for the EMDR alert-tracking backend
(`alertviewer` Django app).

The Django models, serializers and views are shallowly embedded as pure
Lean functions over an explicit database state.  Database rows are
structures carrying their primary key (`id`); a `DB` value is the list of
rows of every table.  ORM calls are translated literally:
`queryset.get(...)` / `get_object_or_404` become `getOne` (error on zero
or several matches), `queryset.filter(...)` becomes `List.filter`,
`obj.save()` becomes a by-pk replacement in the corresponding list, and
`objects.create`'s autoincrement pk becomes `freshId`.  HTTP/ORM errors
(404, 400, 500-level exceptions) are the constructors of `Err`.
Timestamps are natural numbers (seconds); `TruncDate` is division by
86400.
-/

namespace EMDR

/-- Error outcomes of a request handler: `notFound` is Http404/NotFound,
`validationError` a DRF ValidationError (HTTP 400), `multipleReturned`
Django's MultipleObjectsReturned, `integrityError` a database NOT NULL
violation raised by `save()`, `indexError` a Python IndexError.  The
last three escape the handler as a 500 response. -/
inductive Err where
  | notFound
  | validationError (detail : String)
  | multipleReturned
  | integrityError
  | indexError
  deriving DecidableEq, Repr

/-- Decidable equality of request outcomes, so that concrete runs can be
checked by `decide`. -/
instance [DecidableEq ε] [DecidableEq α] : DecidableEq (Except ε α) := fun x y =>
  match x, y with
  | .ok a, .ok b =>
    if h : a = b then .isTrue (congrArg Except.ok h)
    else .isFalse (fun hh => h (Except.ok.inj hh))
  | .error a, .error b =>
    if h : a = b then .isTrue (congrArg Except.error h)
    else .isFalse (fun hh => h (Except.error.inj hh))
  | .ok _, .error _ => .isFalse (fun hh => Except.noConfusion hh)
  | .error _, .ok _ => .isFalse (fun hh => Except.noConfusion hh)

/-- Embeds `models.Customer`: company_name, industry, contact_email. -/
structure Customer where
  id : Nat
  company_name : String
  industry : String
  contact_email : String
  deriving DecidableEq, Repr

/-- Embeds `models.Endpoint`: FK customer, host, ip, name, type, is_active
(default True). -/
structure Endpoint where
  id : Nat
  customer : Nat
  host : String
  ip : String
  name : String
  type : String
  is_active : Bool
  deriving DecidableEq, Repr

/-- Embeds `models.Source`. -/
structure Source where
  id : Nat
  name : String
  description : String
  deriving DecidableEq, Repr

/-- Embeds `models.Rule`.  Note: `name` carries no unique constraint. -/
structure Rule where
  id : Nat
  name : String
  description : String
  deriving DecidableEq, Repr

/-- Embeds `models.MitigationStrategy`: a bare free-text description. -/
structure MitigationStrategy where
  id : Nat
  description : String
  deriving DecidableEq, Repr

/-- Embeds `models.Alert`.  Char fields with choices are kept as `String`
(Django does not validate choices on `save()`); nullable columns are
`Option`; FK columns store the referenced pk; `rules` is the
many-to-many link set. -/
structure Alert where
  id : Nat
  title : String
  description : String
  timestamp : Nat
  endpoint : Nat
  source : Nat
  customer : Nat
  validator : Option Nat
  validated_at : Option Nat
  status : String
  closure_code : String
  mitigation_strategy : Option Nat
  mitigation : String
  resolved_at : Option Nat
  resolver : Option Nat
  rules : List Nat
  severity : String
  deriving DecidableEq, Repr

/-- Embeds `Alert.STATUS_CHOICES`. -/
def Alert.STATUS_CHOICES : List (String × String) :=
  [("open", "Open"), ("validated", "Validated"), ("resolved", "Resolved")]

/-- Embeds `Alert.CLOSURE_CODE_CHOICES`. -/
def Alert.CLOSURE_CODE_CHOICES : List (String × String) :=
  [("NA", "N/A"), ("TP", "True Positive"), ("FP", "False Positive"),
   ("TPNM", "True Positive Not Malicious")]

/-- Embeds `Alert.MITIGATION_CHOICES`. -/
def Alert.MITIGATION_CHOICES : List (String × String) :=
  [("NA", "N/A"), ("soc", "By SOC Team"), ("customer", "By Customer")]

/-- Embeds `Alert.SEVERITY_CHOICES`. -/
def Alert.SEVERITY_CHOICES : List (String × String) :=
  [("low", "Low"), ("medium", "Medium"), ("high", "High")]

/-- The whole persistent state: one list of rows per table. -/
structure DB where
  customers : List Customer
  endpoints : List Endpoint
  sources : List Source
  rules : List Rule
  strategies : List MitigationStrategy
  alerts : List Alert
  deriving DecidableEq, Repr

/-- Embeds `queryset.get(...)` / `get_object_or_404`: succeeds exactly when one
row matches; zero matches raise Http404, several raise
MultipleObjectsReturned. -/
def getOne (l : List α) (p : α → Bool) : Except Err α :=
  match l.filter p with
  | [x] => .ok x
  | [] => .error .notFound
  | _ => .error .multipleReturned

/-- Autoincrement primary key for a new row. -/
def freshId (ids : List Nat) : Nat := ids.foldr max 0 + 1

/-- Leading/trailing whitespace removal, as performed by DRF's
`CharField` (`trim_whitespace=True` by default) on validated input. -/
def stripWs (s : String) : String :=
  ⟨((s.data.dropWhile Char.isWhitespace).reverse.dropWhile Char.isWhitespace).reverse⟩

/-! ## Ingestion (`ReceiveAlertView` / `AlertCreateSerializer`) -/

/-- Request body of `POST /receive/`. -/
structure AlertSubmission where
  title : String
  description : String
  endpoint_id : Nat
  source_name : String
  customer_id : Nat
  rules : List String
  deriving DecidableEq, Repr

/-- The `validated_data` produced by `AlertCreateSerializer.validate`. -/
structure ValidatedAlertData where
  title : String
  description : String
  endpoint : Endpoint
  source : Source
  customer : Customer
  rules : List Rule
  deriving DecidableEq, Repr

/-- Embeds `AlertCreateSerializer.validate`: fetch the endpoint by id
(`get_object_or_404`), reject an inactive endpoint, fetch the source by
name and the customer by id, and resolve the rule names through
`Rule.objects.filter(name__in=rules)` rejecting when the row count
differs from the number of submitted names. -/
def alertCreateValidate (db : DB) (inp : AlertSubmission) :
    Except Err ValidatedAlertData :=
  match getOne db.endpoints (fun e => e.id == inp.endpoint_id) with
  | .error e => .error e
  | .ok endpoint =>
    if !endpoint.is_active then
      .error (.validationError "Endpoint is not active.")
    else
      match getOne db.sources (fun s => s.name == inp.source_name) with
      | .error e => .error e
      | .ok source =>
        match getOne db.customers (fun c => c.id == inp.customer_id) with
        | .error e => .error e
        | .ok customer =>
          if (db.rules.filter (fun r => inp.rules.contains r.name)).length ≠
              inp.rules.length then
            .error (.validationError "One or more rules not found.")
          else
            .ok { title := inp.title, description := inp.description,
                  endpoint := endpoint, source := source,
                  customer := customer,
                  rules := db.rules.filter (fun r => inp.rules.contains r.name) }

/-- Embeds `AlertCreateSerializer.create`: `Alert.objects.create(...)` with the
model defaults (status `open`, closure_code `NA`, mitigation `NA`,
severity `low`, null validator/resolver columns, `auto_now_add`
timestamp), then `alert.rules.set(rules)`. -/
def alertCreateSave (db : DB) (v : ValidatedAlertData) (now : Nat) :
    DB × Alert :=
  let a : Alert :=
    { id := freshId (db.alerts.map Alert.id),
      title := v.title, description := v.description,
      timestamp := now,
      endpoint := v.endpoint.id, source := v.source.id,
      customer := v.customer.id,
      validator := none, validated_at := none,
      status := "open", closure_code := "NA",
      mitigation_strategy := none, mitigation := "NA",
      resolved_at := none, resolver := none,
      rules := v.rules.map Rule.id, severity := "low" }
  ({ db with alerts := db.alerts ++ [a] }, a)

/-- Embeds `ReceiveAlertView.create` up to the response: validate, then persist.
(The response serialization is `alertSerialize` below; it is not part of
the state change because the view runs without a wrapping
transaction.) -/
def receiveAlert (db : DB) (inp : AlertSubmission) (now : Nat) :
    Except Err (DB × Alert) :=
  match alertCreateValidate db inp with
  | .error e => .error e
  | .ok v => .ok (alertCreateSave db v now)

/-! ## `AlertSerializer` (the full alert representation) -/

/-- Python attribute access on a `Customer` row: the model defines
`company_name`, `industry` and `contact_email`; any other attribute name
(in particular `name`) raises AttributeError. -/
def Customer.attr (c : Customer) : String → Option String
  | "company_name" => some c.company_name
  | "industry" => some c.industry
  | "contact_email" => some c.contact_email
  | _ => none

/-- Python attribute access on an `Endpoint` row (string fields). -/
def Endpoint.attr (e : Endpoint) : String → Option String
  | "host" => some e.host
  | "ip" => some e.ip
  | "name" => some e.name
  | "type" => some e.type
  | _ => none

/-- The JSON object produced by `AlertSerializer`.  Every declared field
is read-only for output, hence non-required: when its source attribute
chain does not resolve, DRF's `Field.get_attribute` catches the
AttributeError and raises `SkipField`, so the key is silently omitted
from the output rather than failing the request.  `none` in `source`,
`customer` and `endpoint` models such an omitted key (for
`mitigation_strategy`, a null foreign key is emitted as JSON null). -/
structure AlertRepr where
  id : Nat
  title : String
  description : String
  timestamp : Nat
  status : String
  closure_code : String
  mitigation : String
  severity : String
  validator : Option Nat
  validated_at : Option Nat
  resolver : Option Nat
  resolved_at : Option Nat
  rules : List Rule
  source : Option Source
  mitigation_strategy : Option MitigationStrategy
  customer : Option String
  endpoint : Option String
  deriving DecidableEq, Repr

/-- Embeds `AlertSerializer.to_representation`.  The declared `customer`
field is `CharField(source='customer.name', read_only=True)`: it reads
attribute `name` of the related `Customer`, which the model does not
define (its fields are `company_name`, `industry`, `contact_email`).
The resulting AttributeError makes `Field.get_attribute` raise
`SkipField` for this non-required read-only field, so the `customer` key
is always omitted from the representation; `endpoint` reads
`endpoint.name`, which exists, and is emitted.  A related row missing
from its table would likewise be skipped (Django's related descriptors
raise an AttributeError subclass), though the schema's FK constraints
make that unreachable. -/
def alertSerialize (db : DB) (a : Alert) : AlertRepr :=
  { id := a.id, title := a.title, description := a.description,
    timestamp := a.timestamp, status := a.status,
    closure_code := a.closure_code, mitigation := a.mitigation,
    severity := a.severity, validator := a.validator,
    validated_at := a.validated_at, resolver := a.resolver,
    resolved_at := a.resolved_at,
    rules := db.rules.filter (fun r => a.rules.contains r.id),
    source := db.sources.find? (fun s => s.id == a.source),
    mitigation_strategy := a.mitigation_strategy.bind
      (fun sid => db.strategies.find? (fun s => s.id == sid)),
    customer := (db.customers.find? (fun c => c.id == a.customer)).bind
      (fun c => c.attr "name"),
    endpoint := (db.endpoints.find? (fun e => e.id == a.endpoint)).bind
      (fun e => e.attr "name") }

/-! ## Analyst triage (`AlertDetailView`) -/

/-- Embeds `AlertDetailView.patch`: `request.data.get('closure_code')` (a missing
key yields `None`, modelled by `Option`) is checked against
`dict(Alert.CLOSURE_CODE_CHOICES).keys()` before the alert is fetched;
on success the fetched alert gets the new closure code, status forced to
`validated`, the acting user as validator and `validated_at := now`, and
is saved by pk. -/
def closurePatch (db : DB) (alertId : Nat) (closure_code : Option String)
    (user : Nat) (now : Nat) : Except Err DB :=
  match closure_code with
  | none => .error (.validationError "Invalid closure code.")
  | some code =>
    if !(Alert.CLOSURE_CODE_CHOICES.map Prod.fst).contains code then
      .error (.validationError "Invalid closure code.")
    else
      match getOne db.alerts (fun b => b.id == alertId) with
      | .error e => .error e
      | .ok a =>
        let a' := { a with closure_code := code, status := "validated",
                           validator := some user, validated_at := some now }
        .ok { db with alerts :=
                db.alerts.map (fun b => if b.id == a.id then a' else b) }

/-- The view's closure-code check:
`closure_code not in dict(Alert.CLOSURE_CODE_CHOICES).keys()` — a
missing key (Python `None`) is never a recognized value. -/
def closureCodeValid : Option String → Bool
  | none => false
  | some c => (Alert.CLOSURE_CODE_CHOICES.map Prod.fst).contains c

/-- Embeds `AlertDetailView.post`: fetch the alert, reject a missing or empty
(falsy) description, run `MitigationStrategySerializer` — whose
`CharField` trims surrounding whitespace and rejects a value that is
blank after trimming — then look up `MitigationStrategy.objects.filter
(description=<raw text>).first()`: reuse the existing row if found,
otherwise create a new row holding the *trimmed* text; finally link the
chosen strategy to the alert and save it.  (Strategy rows are kept in
ascending pk order, so `find?` is `.first()`.)  Returns the final state
and the pk of the linked strategy. -/
def attachMitigation (db : DB) (alertId : Nat) (descr : Option String) :
    Except Err (DB × Nat) :=
  match getOne db.alerts (fun b => b.id == alertId) with
  | .error e => .error e
  | .ok a =>
    match descr with
    | none => .error (.validationError "Mitigation strategy description is required.")
    | some d =>
      if d == "" then
        .error (.validationError "Mitigation strategy description is required.")
      else if stripWs d == "" then
        .error (.validationError "This field may not be blank.")
      else
        match db.strategies.find? (fun s => s.description == d) with
        | some s =>
          let linked := db.alerts.map (fun b => if b.id == a.id then { a with mitigation_strategy := some s.id } else b)
          .ok ({ db with alerts := linked }, s.id)
        | none =>
          let sid := freshId (db.strategies.map MitigationStrategy.id)
          let s : MitigationStrategy := { id := sid, description := stripWs d }
          let linked := db.alerts.map (fun b => if b.id == a.id then { a with mitigation_strategy := some sid } else b)
          .ok ({ db with strategies := db.strategies ++ [s], alerts := linked }, sid)

/-! ## Customer path (`NonMaliciousUpdateResolveView`) -/

/-- The view's queryset: alerts of the caller's customer whose
closure_code is `TPNM`. -/
def tpnmScoped (db : DB) (customer : Nat) : List Alert :=
  db.alerts.filter (fun b => b.customer == customer && b.closure_code == "TPNM")

/-- Embeds `NonMaliciousUpdateResolveView.patch`: `get_object` over the scoped
queryset first; then `if mitigation and mitigation not in
dict(Alert.MITIGATION_CHOICES)` — only a truthy (non-empty) value is
checked against the choices, so an empty string is assigned unchecked;
an absent key assigns Python `None`, whose `save()` violates the NOT
NULL `mitigation` column (IntegrityError).  No other field changes. -/
def mitigationSelect (db : DB) (alertId : Nat) (customer : Nat)
    (mitigation : Option String) : Except Err DB :=
  match getOne (tpnmScoped db customer) (fun b => b.id == alertId) with
  | .error e => .error e
  | .ok a =>
    match mitigation with
    | none => .error .integrityError
    | some m =>
      if m != "" && !(Alert.MITIGATION_CHOICES.map Prod.fst).contains m then
        .error (.validationError "Invalid mitigation strategy.")
      else
        let a' := { a with mitigation := m }
        .ok { db with alerts :=
                db.alerts.map (fun b => if b.id == a.id then a' else b) }

/-- Embeds `NonMaliciousUpdateResolveView.put`: fetch the alert from the scoped
queryset, set status `resolved`, resolver to the acting user and
`resolved_at := now`, and save by pk.  The request body is ignored. -/
def resolvePut (db : DB) (alertId : Nat) (customer : Nat) (user : Nat)
    (now : Nat) : Except Err DB :=
  match getOne (tpnmScoped db customer) (fun b => b.id == alertId) with
  | .error e => .error e
  | .ok a =>
    let a' := { a with status := "resolved", resolver := some user,
                       resolved_at := some now }
    .ok { db with alerts :=
            db.alerts.map (fun b => if b.id == a.id then a' else b) }

/-! ## `EndpointDetailView` -/

/-- Partial-update body accepted by `EndpointSerializer`
(`fields = '__all__'`: every model field is writable). -/
structure EndpointPatchBody where
  customer : Option Nat := none
  host : Option String := none
  ip : Option String := none
  name : Option String := none
  type : Option String := none
  is_active : Option Bool := none
  deriving DecidableEq, Repr

/-- Applying a validated partial body to an endpoint row
(`ModelSerializer.update`). -/
def applyEndpointPatch (e : Endpoint) (b : EndpointPatchBody) : Endpoint :=
  { e with customer := b.customer.getD e.customer,
           host := b.host.getD e.host,
           ip := b.ip.getD e.ip,
           name := b.name.getD e.name,
           type := b.type.getD e.type,
           is_active := b.is_active.getD e.is_active }

/-- Embeds `EndpointDetailView.update` (the PATCH handler): fetch the endpoint,
set `is_active := False` and save; then `super().update` re-fetches the
row, validates the body (`customer` must reference an existing Customer;
string-format validation is not modelled) and saves the validated fields
over it.  Returns the response (the updated representation, or an error)
together with the final database — a serializer failure still leaves the
deactivation persisted. -/
def endpointPatch (db : DB) (endpointId : Nat) (body : EndpointPatchBody) :
    Except Err Endpoint × DB :=
  match getOne db.endpoints (fun e => e.id == endpointId) with
  | .error e => (.error e, db)
  | .ok ep =>
    let ep₁ := { ep with is_active := false }
    let db₁ := { db with endpoints :=
                   db.endpoints.map (fun x => if x.id == ep.id then ep₁ else x) }
    if body.customer.any (fun c => !(db.customers.any (fun cu => cu.id == c))) then
      (.error (.validationError "customer"), db₁)
    else
      let ep₂ := applyEndpointPatch ep₁ body
      (.ok ep₂,
       { db₁ with endpoints :=
           db₁.endpoints.map (fun x => if x.id == ep.id then ep₂ else x) })

/-! ## Aggregation (`CustomerAlertDashboardView`, `PDFReportView`) -/

/-- Embeds `queryset.values(k).annotate(count=Count(...))`: one `(key, count)`
pair per distinct key occurring in the projected column; a key with no
rows simply does not appear.  (`order_by` only reorders the pairs and is
irrelevant to the properties proved below.) -/
def groupCounts [DecidableEq α] (keys : List α) : List (α × Nat) :=
  keys.dedup.map (fun k => (k, keys.count k))

/-- The dashboard's alert set: one customer, inclusive `[after, before]`
window on the creation timestamp. -/
def dashboardAlerts (db : DB) (customer after before : Nat) : List Alert :=
  db.alerts.filter (fun a =>
    a.customer == customer && decide (after ≤ a.timestamp) &&
    decide (a.timestamp ≤ before))

/-- Embeds `alerts.values('severity').annotate(count=Count('severity'))`. -/
def severity_stats (alerts : List Alert) : List (String × Nat) :=
  groupCounts (alerts.map Alert.severity)

/-- Embeds `alerts.values('status').annotate(count=Count('status'))`. -/
def status_stats (alerts : List Alert) : List (String × Nat) :=
  groupCounts (alerts.map Alert.status)

/-- Embeds `alerts.annotate(day=TruncDate('timestamp')).values('day')
.annotate(count=Count('id'))`: the day bucket of a timestamp. -/
def event_counts (alerts : List Alert) : List (Nat × Nat) :=
  groupCounts (alerts.map (fun a => a.timestamp / 86400))

/-- Embeds `alerts.values('source__name').annotate(count=Count('source'))`:
grouping over the joined source name. -/
def source_stats (db : DB) (alerts : List Alert) : List (Option String × Nat) :=
  groupCounts (alerts.map (fun a =>
    (db.sources.find? (fun s => s.id == a.source)).map Source.name))

/-- The document `PDFReportView` assembles: title, date-range line, the
four aggregation tables with their chart data, and the endpoint table. -/
structure PdfDoc where
  company : String
  after : Nat
  before : Nat
  severityTable : List (String × Nat)
  severityChart : List (String × Nat)
  eventTable : List (Nat × Nat)
  statusTable : List (String × Nat)
  sourceTable : List (Option String × Nat)
  endpointTable : List (String × Bool)
  deriving DecidableEq, Repr

/-- Embeds `severity_order_fixer = severity_data.pop(1);
severity_data.append(severity_order_fixer)`: `list.pop(1)` raises
IndexError unless the list has at least two elements. -/
def severityOrderFix (l : List (String × Nat)) : Except Err (List (String × Nat)) :=
  match l with
  | a :: b :: rest => .ok (a :: rest ++ [b])
  | _ => .error .indexError

/-- Embeds `PDFReportView.get` after date parsing: resolve the customer by
company name, collect the customer's alerts in the window and all their
endpoints, compute the four aggregations, apply the severity chart
reorder hack, and build the document.  (The reportlab chart/pie property
collections auto-create their indexed entries, so only `pop(1)` can
raise.) -/
def pdfReport (db : DB) (company_name : String) (after before : Nat) :
    Except Err PdfDoc :=
  match getOne db.customers (fun c => c.company_name == company_name) with
  | .error e => .error e
  | .ok customer =>
    let alerts := dashboardAlerts db customer.id after before
    let endpoints := db.endpoints.filter (fun e => e.customer == customer.id)
    let severity_data := severity_stats alerts
    match severityOrderFix severity_data with
    | .error e => .error e
    | .ok fixedSeverity =>
      .ok { company := customer.company_name, after := after, before := before,
            severityTable := severity_data, severityChart := fixedSeverity,
            eventTable := event_counts alerts,
            statusTable := status_stats alerts,
            sourceTable := source_stats db alerts,
            endpointTable := endpoints.map (fun e => (e.name, e.is_active)) }

/-! ## The exposed alert-mutating operations, as one step relation -/

/-- One exposed alert operation: ingestion, the analyst closure-code
PATCH, the customer mitigation-select PATCH, or the customer resolve
PUT. -/
inductive Op where
  | ingest (inp : AlertSubmission) (now : Nat)
  | patchClosure (alertId : Nat) (code : Option String) (user : Nat) (now : Nat)
  | selectMitigation (alertId : Nat) (customer : Nat) (mitigation : Option String)
  | putResolve (alertId : Nat) (customer : Nat) (user : Nat) (now : Nat)
  deriving DecidableEq, Repr

/-- Whether an operation is the analyst closure-code PATCH. -/
def Op.isPatchClosure : Op → Bool
  | .patchClosure _ _ _ _ => true
  | _ => false

/-- Executing one exposed operation against the database. -/
def applyOp (db : DB) : Op → Except Err DB
  | .ingest inp now =>
    match receiveAlert db inp now with
    | .error e => .error e
    | .ok (db', _) => .ok db'
  | .patchClosure i c u t => closurePatch db i c u t
  | .selectMitigation i cu m => mitigationSelect db i cu m
  | .putResolve i cu u t => resolvePut db i cu u t

/-- Position of a status value on the forward chain
open → validated → resolved. -/
def statusRank : String → Nat
  | "validated" => 1
  | "resolved" => 2
  | _ => 0

/-- Agreement of two alert rows on every field other than `status`,
`resolver` and `resolved_at` — the frame of the resolve PUT. -/
def Alert.frameAgrees (x y : Alert) : Prop :=
  x.id = y.id ∧ x.title = y.title ∧ x.description = y.description ∧
  x.timestamp = y.timestamp ∧ x.endpoint = y.endpoint ∧
  x.source = y.source ∧ x.customer = y.customer ∧
  x.validator = y.validator ∧ x.validated_at = y.validated_at ∧
  x.closure_code = y.closure_code ∧
  x.mitigation_strategy = y.mitigation_strategy ∧
  x.mitigation = y.mitigation ∧ x.rules = y.rules ∧ x.severity = y.severity

/-- The frame relation is decidable, so witnesses can be checked by
evaluation. -/
instance (x y : Alert) : Decidable (Alert.frameAgrees x y) := by
  unfold Alert.frameAgrees
  infer_instance

/-! ## Concrete database states used by the counterexamples and witnesses -/

/-- Projection of an `Except` result, used to name concrete result
states in witnesses. -/
def exceptD (x : Except Err α) (d : α) : α :=
  match x with
  | .ok v => v
  | .error _ => d

/-- A customer row. -/
def cust1 : Customer := { id := 1, company_name := "Acme", industry := "tech", contact_email := "it@acme.io" }

/-- An active endpoint of `cust1`. -/
def ep1 : Endpoint := { id := 1, customer := 1, host := "h1", ip := "10.0.0.1", name := "ep-one", type := "server", is_active := true }

/-- A source row. -/
def src1 : Source := { id := 1, name := "IDS", description := "ids" }

/-- A rule row. -/
def ruleA : Rule := { id := 1, name := "RuleA", description := "a" }

/-- A resolved `TPNM` alert of `cust1`. -/
def alertResolved : Alert := { id := 1, title := "T", description := "D", timestamp := 10, endpoint := 1, source := 1, customer := 1, validator := some 3, validated_at := some 12, status := "resolved", closure_code := "TPNM", mitigation_strategy := none, mitigation := "NA", resolved_at := some 20, resolver := some 5, rules := [1], severity := "low" }

/-- An open, untriaged alert of `cust1`. -/
def alertOpen : Alert := { id := 1, title := "T", description := "D", timestamp := 10, endpoint := 1, source := 1, customer := 1, validator := none, validated_at := none, status := "open", closure_code := "NA", mitigation_strategy := none, mitigation := "NA", resolved_at := none, resolver := none, rules := [1], severity := "low" }

/-- A validated `TPNM` alert of `cust1`. -/
def alertTPNM : Alert := { id := 1, title := "T", description := "D", timestamp := 10, endpoint := 1, source := 1, customer := 1, validator := some 3, validated_at := some 12, status := "validated", closure_code := "TPNM", mitigation_strategy := none, mitigation := "NA", resolved_at := none, resolver := none, rules := [1], severity := "low" }

/-- State holding one resolved alert. -/
def dbResolved : DB := { customers := [cust1], endpoints := [ep1], sources := [src1], rules := [ruleA], strategies := [], alerts := [alertResolved] }

/-- State holding one open alert. -/
def dbOpen : DB := { customers := [cust1], endpoints := [ep1], sources := [src1], rules := [ruleA], strategies := [], alerts := [alertOpen] }

/-- State holding one validated `TPNM` alert. -/
def dbTPNM : DB := { customers := [cust1], endpoints := [ep1], sources := [src1], rules := [ruleA], strategies := [], alerts := [alertTPNM] }

/-- Empty-alert state for ingestion runs. -/
def dbIngest : DB := { customers := [cust1], endpoints := [ep1], sources := [src1], rules := [ruleA], strategies := [], alerts := [] }

/-- A fully valid ingestion submission against `dbIngest`. -/
def subValid : AlertSubmission := { title := "T", description := "D", endpoint_id := 1, source_name := "IDS", customer_id := 1, rules := ["RuleA"] }

/-- State with two distinct rules that share the name `A`. -/
def dbDupRules : DB := { customers := [cust1], endpoints := [ep1], sources := [src1], rules := [{ id := 1, name := "A", description := "x" }, { id := 2, name := "A", description := "y" }], strategies := [], alerts := [] }

/-- A submission naming rule `B`, which does not exist in `dbDupRules`. -/
def subMissingRule : AlertSubmission := { title := "T", description := "D", endpoint_id := 1, source_name := "IDS", customer_id := 1, rules := ["A", "B"] }

/-- A submission naming the existing `RuleA` and the absent `Nope`. -/
def subRuleNope : AlertSubmission := { title := "T", description := "D", endpoint_id := 1, source_name := "IDS", customer_id := 1, rules := ["RuleA", "Nope"] }

/-- Two triaged alerts for the mitigation-strategy attach runs. -/
def dbTwoAlerts : DB := { customers := [cust1], endpoints := [ep1], sources := [src1], rules := [ruleA], strategies := [], alerts := [alertTPNM, { alertTPNM with id := 2 }] }

/-- State with one already-deactivated endpoint. -/
def dbInactiveEp : DB := { customers := [cust1], endpoints := [{ ep1 with is_active := false }], sources := [src1], rules := [], strategies := [], alerts := [] }

/-- A state whose only alert is `alertTPNM` resolved by user 5 at 99. -/
def dbTPNMresolved : DB :=
  { dbTPNM with alerts := [{ alertTPNM with status := "resolved", resolver := some 5, resolved_at := some 99 }] }

/-- State `dbTwoAlerts` after attaching `Patch firmware` to alert 1. -/
def dbTwoAlertsAttached1 : DB :=
  { dbTwoAlerts with
    strategies := [{ id := 1, description := "Patch firmware" }],
    alerts := [{ alertTPNM with mitigation_strategy := some 1 },
               { alertTPNM with id := 2 }] }

/-- State `dbTwoAlertsAttached1` after attaching `Patch firmware` to alert 2. -/
def dbTwoAlertsAttached2 : DB :=
  { dbTwoAlertsAttached1 with
    alerts := [{ alertTPNM with mitigation_strategy := some 1 },
               { alertTPNM with id := 2, mitigation_strategy := some 1 }] }

/-! ## Helper lemmas -/

/-- A successful `getOne` returns a member satisfying the predicate, and
it is the only member doing so. -/
lemma getOne_ok {α : Type} {l : List α} {p : α → Bool} {a : α}
    (h : getOne l p = .ok a) :
    a ∈ l ∧ p a = true ∧ ∀ b ∈ l, p b = true → b = a := by
  unfold getOne at h
  split at h
  next x heq =>
    injection h with h
    subst h
    have hx : x ∈ l.filter p := by rw [heq]; exact List.mem_singleton_self x
    refine ⟨(List.mem_filter.mp hx).1, (List.mem_filter.mp hx).2, ?_⟩
    intro b hb hpb
    have hbf : b ∈ l.filter p := List.mem_filter.mpr ⟨hb, hpb⟩
    rw [heq] at hbf
    exact List.mem_singleton.mp hbf
  next heq => cases h
  next heq h1 h2 => cases h

/-- Every element is bounded by the running maximum. -/
lemma le_foldr_max (l : List Nat) : ∀ x ∈ l, x ≤ l.foldr max 0 := by
  induction l with
  | nil => intro x hx; cases hx
  | cons a t ih =>
    intro x hx
    rcases List.mem_cons.mp hx with rfl | hx
    · exact le_max_left _ _
    · exact le_trans (ih x hx) (le_max_right _ _)

/-- A status value never ranks above `resolved`. -/
lemma statusRank_le_two (s : String) : statusRank s ≤ 2 := by
  unfold statusRank
  split <;> omega

/-- The state and row produced by `alertCreateSave`: the new row is
appended and carries the fresh pk. -/
lemma alertCreateSave_spec (db : DB) (v : ValidatedAlertData) (now : Nat) :
    (alertCreateSave db v now).1.alerts = db.alerts ++ [(alertCreateSave db v now).2] ∧
    (alertCreateSave db v now).2.id = freshId (db.alerts.map Alert.id) :=
  ⟨rfl, rfl⟩

/-! ## C1 -/

/-- C1 is false as stated: applying the analyst closure-code PATCH
(an exposed operation) to an alert with status `resolved` sets its
status back to `validated`. -/
theorem closure_patch_regresses_resolved_alert :
    dbResolved.alerts.map Alert.status = ["resolved"] ∧
    (applyOp dbResolved (Op.patchClosure 1 (some "TP") 9 50)).map
        (fun d => d.alerts.map Alert.status) = .ok ["validated"] := by
  decide

/-- C1 (amended): across every exposed operation, an existing alert's
status never moves backwards along open → validated → resolved, except
that the analyst closure-code PATCH always forces status to `validated`
(which regresses a resolved alert); in particular no operation ever sets
a status back to `open`. -/
theorem status_forward_except_closure_patch (db db' : DB) (op : Op)
    (hids : (db.alerts.map Alert.id).Nodup)
    (h : applyOp db op = .ok db') :
    ∀ a' ∈ db'.alerts, ∀ a ∈ db.alerts, a'.id = a.id →
      statusRank a.status ≤ statusRank a'.status ∨
        (op.isPatchClosure = true ∧ a'.status = "validated") := by
  cases op with
  | ingest inp now =>
    simp only [applyOp] at h
    split at h
    next heq => cases h
    next db'' a₀ heq =>
      injection h with h
      subst h
      unfold receiveAlert at heq
      split at heq
      next => cases heq
      next v hval =>
        injection heq with heq
        have h1 : (alertCreateSave db v now).1 = db'' := congrArg Prod.fst heq
        have h2 : (alertCreateSave db v now).2 = a₀ := congrArg Prod.snd heq
        obtain ⟨hA, hI⟩ := alertCreateSave_spec db v now
        rw [h1, h2] at hA
        rw [h2] at hI
        intro a' ha' a ha hid
        rw [hA] at ha'
        rcases List.mem_append.mp ha' with hmem | hmem
        · left
          obtain rfl : a' = a := List.inj_on_of_nodup_map hids hmem ha hid
          exact le_refl _
        · exfalso
          obtain rfl : a' = a₀ := List.mem_singleton.mp hmem
          have hbound : a.id ≤ (db.alerts.map Alert.id).foldr max 0 :=
            le_foldr_max _ a.id (List.mem_map_of_mem Alert.id ha)
          rw [← hid, hI] at hbound
          unfold freshId at hbound
          omega
  | patchClosure i c u t =>
    simp only [applyOp] at h
    unfold closurePatch at h
    match c with
    | none => cases h
    | some code =>
      simp only at h
      split at h
      next => cases h
      next =>
        split at h
        next => cases h
        next a₀ hget =>
          injection h with h
          subst h
          intro a' ha' a ha hid
          simp only [List.mem_map] at ha'
          obtain ⟨b, hb, rfl⟩ := ha'
          by_cases hbi : (b.id == a₀.id) = true
          · right
            refine ⟨rfl, ?_⟩
            rw [if_pos hbi]
          · left
            rw [if_neg hbi] at hid ⊢
            obtain rfl : b = a := List.inj_on_of_nodup_map hids hb ha hid
            exact le_refl _
  | selectMitigation i cu m =>
    simp only [applyOp] at h
    unfold mitigationSelect at h
    split at h
    next => cases h
    next a₀ hget =>
      match m with
      | none => cases h
      | some mm =>
        simp only at h
        split at h
        next => cases h
        next =>
          injection h with h
          subst h
          intro a' ha' a ha hid
          simp only [List.mem_map] at ha'
          obtain ⟨b, hb, rfl⟩ := ha'
          have ha₀mem : a₀ ∈ db.alerts :=
            (List.mem_filter.mp (getOne_ok hget).1).1
          by_cases hbi : (b.id == a₀.id) = true
          · left
            rw [if_pos hbi] at hid ⊢
            obtain rfl : a₀ = a := by
              refine List.inj_on_of_nodup_map hids ha₀mem ha ?_
              simpa using hid
            exact le_refl _
          · left
            rw [if_neg hbi] at hid ⊢
            obtain rfl : b = a := List.inj_on_of_nodup_map hids hb ha hid
            exact le_refl _
  | putResolve i cu u t =>
    simp only [applyOp] at h
    unfold resolvePut at h
    split at h
    next => cases h
    next a₀ hget =>
      injection h with h
      subst h
      intro a' ha' a ha hid
      simp only [List.mem_map] at ha'
      obtain ⟨b, hb, rfl⟩ := ha'
      by_cases hbi : (b.id == a₀.id) = true
      · left
        rw [if_pos hbi]
        exact statusRank_le_two a.status
      · left
        rw [if_neg hbi] at hid ⊢
        obtain rfl : b = a := List.inj_on_of_nodup_map hids hb ha hid
        exact le_refl _

/-- C1 amended-claim witness: the hypotheses hold and the conclusion is
realized on a concrete resolve of the TPNM alert. -/
theorem status_forward_except_closure_patch_witness :
    (dbTPNM.alerts.map Alert.id).Nodup ∧
    applyOp dbTPNM (Op.putResolve 1 1 5 99) = .ok dbTPNMresolved ∧
    (∀ a' ∈ dbTPNMresolved.alerts, ∀ a ∈ dbTPNM.alerts, a'.id = a.id →
      statusRank a.status ≤ statusRank a'.status ∨
        ((Op.putResolve 1 1 5 99).isPatchClosure = true ∧ a'.status = "validated")) :=
  ⟨by decide, by decide,
    status_forward_except_closure_patch dbTPNM dbTPNMresolved
      (Op.putResolve 1 1 5 99) (by decide) (by decide)⟩

/-! ## C2 -/

/-- C2: a fully valid ingestion does create an Alert with status `open`,
closure_code `NA`, mitigation `NA`, severity `low` and the named rules
linked (shown on a concrete valid submission), and the request returns
201 with the serialized alert, with the endpoint name flattened to a
display string — but the claimed flattened customer name never appears:
`AlertSerializer`'s `customer` field reads `customer.name`, which the
`Customer` model does not define, so DRF skips the field and the
`customer` key is omitted from every alert representation. -/
theorem valid_ingest_customer_key_omitted :
    ((receiveAlert dbIngest subValid 1000).map (fun p =>
        (p.2.status, p.2.closure_code, p.2.mitigation, p.2.severity)) =
      .ok ("open", "NA", "NA", "low")) ∧
    ((receiveAlert dbIngest subValid 1000).map (fun p => p.2.rules) = .ok [1]) ∧
    ((receiveAlert dbIngest subValid 1000).map (fun p => p.1.alerts.length) = .ok 1) ∧
    ((receiveAlert dbIngest subValid 1000).map (fun p =>
        ((alertSerialize p.1 p.2).customer, (alertSerialize p.1 p.2).endpoint)) =
      .ok (none, some "ep-one")) ∧
    (∀ db : DB, ∀ a : Alert, (alertSerialize db a).customer = none) := by
  refine ⟨by decide, by decide, by decide, by decide, ?_⟩
  intro db a
  show (db.customers.find? (fun c => c.id == a.customer)).bind
      (fun c => c.attr "name") = none
  cases db.customers.find? (fun c => c.id == a.customer) with
  | none => rfl
  | some c => rfl

/-! ## C3 -/

/-- A successful `alertCreateValidate` certifies an existing active
endpoint (unique for its id), an existing source, an existing customer,
and a rule-row count equal to the number of submitted names. -/
lemma alertCreateValidate_ok {db : DB} {inp : AlertSubmission}
    {v : ValidatedAlertData} (h : alertCreateValidate db inp = .ok v) :
    (∃ e ∈ db.endpoints, e.id = inp.endpoint_id ∧ e.is_active = true ∧
       ∀ e' ∈ db.endpoints, e'.id = inp.endpoint_id → e' = e) ∧
    (∃ s ∈ db.sources, s.name = inp.source_name) ∧
    (∃ c ∈ db.customers, c.id = inp.customer_id) ∧
    (db.rules.filter (fun r => inp.rules.contains r.name)).length =
      inp.rules.length := by
  unfold alertCreateValidate at h
  split at h
  next => cases h
  next ep hep =>
    split at h
    next => cases h
    next hact =>
      split at h
      next => cases h
      next src hsrc =>
        split at h
        next => cases h
        next cu hcu =>
          split at h
          next => cases h
          next hlen =>
            obtain ⟨hepm, hepp, hepu⟩ := getOne_ok hep
            obtain ⟨hsrcm, hsrcp, -⟩ := getOne_ok hsrc
            obtain ⟨hcum, hcup, -⟩ := getOne_ok hcu
            refine ⟨⟨ep, hepm, by simpa using hepp, by simpa using hact, ?_⟩,
                    ⟨src, hsrcm, by simpa using hsrcp⟩,
                    ⟨cu, hcum, by simpa using hcup⟩, not_not.mp hlen⟩
            intro e' he' hid'
            exact hepu e' he' (by simpa using hid')

/-- C3 is false as stated: in a state holding two distinct rules both
named `A`, the submission naming rules `A` and `B` — where no rule named
`B` exists — is accepted and an Alert is persisted, because the
validator only compares the matching-row count with the number of
submitted names. -/
theorem ingest_accepts_missing_rule_with_duplicates :
    (dbDupRules.rules.all (fun r => r.name != "B")) = true ∧
    subMissingRule.rules.contains "B" = true ∧
    (receiveAlert dbDupRules subMissingRule 500).map
        (fun p => p.1.alerts.length) = .ok 1 := by
  decide

/-- C3 (amended): an ingestion submission is rejected — with no Alert
persisted — when the endpoint does not exist, the endpoint is inactive,
the source does not exist, the customer does not exist, or the count of
rule rows whose name is among the submitted names differs from the
number of submitted names (with unique rule names and distinct submitted
names this is exactly "some named rule does not exist"). -/
theorem ingest_rejects_invalid_amended (db : DB) (inp : AlertSubmission)
    (now : Nat)
    (h : (∀ e ∈ db.endpoints, e.id ≠ inp.endpoint_id) ∨
         (∃ e ∈ db.endpoints, e.id = inp.endpoint_id ∧ e.is_active = false) ∨
         (∀ s ∈ db.sources, s.name ≠ inp.source_name) ∨
         (∀ c ∈ db.customers, c.id ≠ inp.customer_id) ∨
         (db.rules.filter (fun r => inp.rules.contains r.name)).length ≠
           inp.rules.length) :
    (receiveAlert db inp now).isOk = false := by
  unfold receiveAlert
  cases hv : alertCreateValidate db inp with
  | error e => rfl
  | ok v =>
    exfalso
    obtain ⟨⟨ep, hepm, hepid, hepact, hepu⟩, ⟨src, hsrcm, hsrcn⟩,
            ⟨cu, hcum, hcuid⟩, hlen⟩ := alertCreateValidate_ok hv
    rcases h with h | h | h | h | h
    · exact h ep hepm hepid
    · obtain ⟨e, he, heid, hinact⟩ := h
      have : e = ep := hepu e he heid
      rw [this, hepact] at hinact
      cases hinact
    · exact h src hsrcm hsrcn
    · exact h cu hcum hcuid
    · exact h hlen

/-- C3 amended-claim witness: a submission naming the absent rule `Nope`
is rejected on a concrete state. -/
theorem ingest_rejects_invalid_amended_witness :
    (dbIngest.rules.filter (fun r => subRuleNope.rules.contains r.name)).length ≠
      subRuleNope.rules.length ∧
    (receiveAlert dbIngest subRuleNope 0).isOk = false :=
  ⟨by decide,
    ingest_rejects_invalid_amended dbIngest subRuleNope 0
      (Or.inr (Or.inr (Or.inr (Or.inr (by decide)))))⟩

/-! ## C4 -/

/-- C4: an unrecognized closure_code (including a missing one) makes the
PATCH fail with a validation error before any state is read or written;
a recognized code on an existing alert rewrites exactly that alert with
the new closure_code, status forced to `validated`, the acting user as
validator, and `validated_at` stamped with the current time. -/
theorem closure_code_patch_spec (db : DB) (alertId : Nat)
    (code : Option String) (user now : Nat) :
    (closureCodeValid code = false →
       closurePatch db alertId code user now =
         .error (.validationError "Invalid closure code.")) ∧
    (∀ c a, code = some c → closureCodeValid code = true →
       getOne db.alerts (fun b => b.id == alertId) = .ok a →
       closurePatch db alertId code user now =
         .ok { db with alerts := db.alerts.map (fun b =>
                 if b.id == a.id then
                   { a with closure_code := c, status := "validated",
                            validator := some user, validated_at := some now }
                 else b) }) := by
  constructor
  · intro hv
    cases code with
    | none => rfl
    | some c =>
      have hc : (Alert.CLOSURE_CODE_CHOICES.map Prod.fst).contains c = false := hv
      simp only [closurePatch]
      rw [hc]
      rfl
  · intro c a hc hv hget
    subst hc
    have hcv : (Alert.CLOSURE_CODE_CHOICES.map Prod.fst).contains c = true := hv
    simp only [closurePatch]
    rw [hcv, hget]
    rfl

/-- C4 witness: setting closure_code `FP` on the concrete open alert. -/
theorem closure_code_patch_spec_witness :
    closureCodeValid (some "FP") = true ∧
    getOne dbOpen.alerts (fun b => b.id == 1) = .ok alertOpen ∧
    closurePatch dbOpen 1 (some "FP") 3 77 =
      .ok { dbOpen with alerts := dbOpen.alerts.map (fun b =>
              if b.id == alertOpen.id then
                { alertOpen with closure_code := "FP", status := "validated",
                                 validator := some 3, validated_at := some 77 }
              else b) } :=
  ⟨by decide, by decide,
    (closure_code_patch_spec dbOpen 1 (some "FP") 3 77).2 "FP" alertOpen rfl
      (by decide) (by decide)⟩

/-! ## C5 -/

/-- Unfolding of the mitigation PATCH once the scoped lookup succeeded:
a missing value hits the NOT NULL column, a submitted value is checked
only when non-empty, and the accepted value is saved into the fetched
alert. -/
lemma mitigationSelect_some_eq {db : DB} {cust alertId : Nat} {a : Alert}
    (hget : getOne (tpnmScoped db cust) (fun b => b.id == alertId) = .ok a)
    (m : String) :
    mitigationSelect db alertId cust (some m) =
      (if m != "" && !(Alert.MITIGATION_CHOICES.map Prod.fst).contains m then
         .error (.validationError "Invalid mitigation strategy.")
       else
         .ok { db with alerts := db.alerts.map (fun b =>
                 if b.id == a.id then { a with mitigation := m } else b) }) := by
  unfold mitigationSelect
  rw [hget]

/-- C5 is false as stated: the empty string is not one of the three
recognized mitigation values, yet the customer mitigation-select PATCH
accepts it and stores it in the alert's mitigation field. -/
theorem mitigation_select_accepts_empty_value :
    (Alert.MITIGATION_CHOICES.map Prod.fst).contains "" = false ∧
    (mitigationSelect dbTPNM 1 1 (some "")).map
        (fun d => d.alerts.map Alert.mitigation) = .ok [""] := by
  decide

/-- C5 (amended): for an alert found in the caller's TPNM scope, a
non-empty submitted value outside NA/soc/customer is rejected with the
alert unchanged, while a value among the choices — or the empty string —
is stored in the alert's mitigation field with no other field (in
particular status) changed; an alert outside the TPNM scope is reported
not found and never mutated. -/
theorem mitigation_select_spec (db : DB) (alertId cust : Nat)
    (mit : Option String) :
    (∀ m a, mit = some m → m ≠ "" →
       (Alert.MITIGATION_CHOICES.map Prod.fst).contains m = false →
       getOne (tpnmScoped db cust) (fun b => b.id == alertId) = .ok a →
       mitigationSelect db alertId cust mit =
         .error (.validationError "Invalid mitigation strategy.")) ∧
    (∀ m a, mit = some m →
       ((Alert.MITIGATION_CHOICES.map Prod.fst).contains m = true ∨ m = "") →
       getOne (tpnmScoped db cust) (fun b => b.id == alertId) = .ok a →
       mitigationSelect db alertId cust mit =
         .ok { db with alerts := db.alerts.map (fun b =>
                 if b.id == a.id then { a with mitigation := m } else b) }) ∧
    ((tpnmScoped db cust).filter (fun b => b.id == alertId) = [] →
       mitigationSelect db alertId cust mit = .error .notFound) := by
  refine ⟨?_, ?_, ?_⟩
  · intro m a hm hne hcon hget
    subst hm
    rw [mitigationSelect_some_eq hget m]
    rw [if_pos (by rw [hcon]; simp only [Bool.not_false, Bool.and_true]; exact bne_iff_ne.mpr hne)]
  · intro m a hm hin hget
    subst hm
    rw [mitigationSelect_some_eq hget m]
    rcases hin with hcon | rfl
    · rw [if_neg (by rw [hcon]; simp)]
    · rw [if_neg (by simp)]
  · intro hfil
    unfold mitigationSelect getOne
    rw [hfil]

/-- C5 amended-claim witness: storing the valid value `soc` on the
concrete TPNM alert. -/
theorem mitigation_select_spec_witness :
    (Alert.MITIGATION_CHOICES.map Prod.fst).contains "soc" = true ∧
    getOne (tpnmScoped dbTPNM 1) (fun b => b.id == 1) = .ok alertTPNM ∧
    mitigationSelect dbTPNM 1 1 (some "soc") =
      .ok { dbTPNM with alerts := dbTPNM.alerts.map (fun b =>
              if b.id == alertTPNM.id then { alertTPNM with mitigation := "soc" }
              else b) } :=
  ⟨by decide, by decide,
    (mitigation_select_spec dbTPNM 1 1 (some "soc")).2.1 "soc" alertTPNM rfl
      (Or.inl (by decide)) (by decide)⟩

/-! ## C6 -/

/-- A failing alert lookup is the attach operation's outcome. -/
lemma attachMitigation_getOne_error {db : DB} {i : Nat} {e : Err}
    (hget : getOne db.alerts (fun b => b.id == i) = .error e)
    (descr : Option String) : attachMitigation db i descr = .error e := by
  unfold attachMitigation
  rw [hget]

/-- Unfolding of the mitigation-strategy attach once the alert lookup
succeeded. -/
lemma attachMitigation_some_eq {db : DB} {i : Nat} {a : Alert}
    (hget : getOne db.alerts (fun b => b.id == i) = .ok a) (d : String) :
    attachMitigation db i (some d) =
      (if d == "" then
         .error (.validationError "Mitigation strategy description is required.")
       else if stripWs d == "" then
         .error (.validationError "This field may not be blank.")
       else
         match db.strategies.find? (fun s => s.description == d) with
         | some s =>
           .ok ({ db with alerts := db.alerts.map (fun b =>
                    if b.id == a.id then { a with mitigation_strategy := some s.id }
                    else b) }, s.id)
         | none =>
           .ok ({ db with
                  strategies := db.strategies ++
                    [{ id := freshId (db.strategies.map MitigationStrategy.id),
                       description := stripWs d }],
                  alerts := db.alerts.map (fun b =>
                    if b.id == a.id then
                      { a with mitigation_strategy := some (freshId (db.strategies.map MitigationStrategy.id)) }
                    else b) },
                freshId (db.strategies.map MitigationStrategy.id))) := by
  unfold attachMitigation
  rw [hget]

/-- A `find?` skips a prefix in which nothing matches. -/
lemma find?_append_of_none {α : Type} {l₁ l₂ : List α} {p : α → Bool}
    (h : l₁.find? p = none) : (l₁ ++ l₂).find? p = l₂.find? p := by
  induction l₁ with
  | nil => rfl
  | cons a t ih =>
    cases hpa : p a with
    | true =>
      rw [List.find?_cons_of_pos t hpa] at h
      cases h
    | false =>
      rw [List.find?_cons_of_neg t (by simp [hpa])] at h
      rw [List.cons_append, List.find?_cons_of_neg _ (by simp [hpa])]
      exact ih h

/-- After linking strategy `s1` into the alerts with id `i1` and then
`s2 = s1` into those with id `i2`, every alert carrying one of the two
ids references `s1`. -/
lemma linked_covers {dbA : List Alert} {a1 a2 : Alert} {s1 s2 i1 i2 : Nat}
    (ha1 : a1.id = i1) (ha2 : a2.id = i2) (hs : s2 = s1) :
    ∀ b ∈ (dbA.map (fun x => if x.id == a1.id then
             { a1 with mitigation_strategy := some s1 } else x)).map
           (fun x => if x.id == a2.id then
             { a2 with mitigation_strategy := some s2 } else x),
      b.id = i1 ∨ b.id = i2 → b.mitigation_strategy = some s1 := by
  intro b hb hcase
  obtain ⟨c, hc, rfl⟩ := List.mem_map.mp hb
  by_cases h2i : (c.id == a2.id) = true
  · rw [if_pos h2i]
    simp [hs]
  · rw [if_neg h2i] at hcase ⊢
    obtain ⟨e, he, rfl⟩ := List.mem_map.mp hc
    by_cases h1i : (e.id == a1.id) = true
    · rw [if_pos h1i]
    · rw [if_neg h1i] at hcase h2i ⊢
      exfalso
      rcases hcase with hh | hh
      · exact (by simpa using h1i : ¬ e.id = a1.id) (by rw [hh, ha1])
      · exact (by simpa using h2i : ¬ e.id = a2.id) (by rw [hh, ha2])

/-- C6 is false as stated: the description ` Patch firmware` (leading
space) attached to two different alerts yields two distinct
MitigationStrategy records — the dedup lookup uses the raw submitted
text while the created row stores the whitespace-trimmed text, so the
second lookup misses.  Both stored rows read `Patch firmware`, and the
two alerts reference different pks. -/
theorem attach_same_description_two_records :
    stripWs " Patch firmware" = "Patch firmware" ∧
    (match attachMitigation dbTwoAlerts 1 (some " Patch firmware") with
     | .ok p => (attachMitigation p.1 2 (some " Patch firmware")).map
         (fun q : DB × Nat =>
           (p.2, q.2, q.1.strategies.map MitigationStrategy.description,
            q.1.alerts.map Alert.mitigation_strategy))
     | .error e => .error e) =
      .ok (1, 2, ["Patch firmware", "Patch firmware"], [some 1, some 2]) := by
  exact ⟨by decide, by decide⟩

/-- C6 (amended): an empty description is rejected, and for a
description without surrounding whitespace the attach-or-create-then-
link dedup works as claimed: attaching the same description to two
alerts links both to one MitigationStrategy record holding exactly that
text. -/
theorem attach_dedup_spec (db db₁ db₂ : DB) (i1 i2 s1 s2 : Nat) (d : String)
    (ht : stripWs d = d)
    (h1 : attachMitigation db i1 (some d) = .ok (db₁, s1))
    (h2 : attachMitigation db₁ i2 (some d) = .ok (db₂, s2)) :
    s1 = s2 ∧
    (∃ s ∈ db₂.strategies, s.id = s1 ∧ s.description = d) ∧
    (∀ b ∈ db₂.alerts, b.id = i1 ∨ b.id = i2 → b.mitigation_strategy = some s1) ∧
    attachMitigation db i1 (some "") =
      .error (.validationError "Mitigation strategy description is required.") := by
  cases hget1 : getOne db.alerts (fun b => b.id == i1) with
  | error e =>
    rw [attachMitigation_getOne_error hget1] at h1
    cases h1
  | ok a1 =>
    have ha1 : a1.id = i1 := by simpa using (getOne_ok hget1).2.1
    have hempty : attachMitigation db i1 (some "") =
        .error (.validationError "Mitigation strategy description is required.") := by
      rw [attachMitigation_some_eq hget1 ""]
      exact rfl
    rw [attachMitigation_some_eq hget1 d] at h1
    split at h1
    next => cases h1
    next hd1 =>
      split at h1
      next => cases h1
      next hd2 =>
        split at h1
        next s hfind1 =>
          injection h1 with h1
          injection h1 with hdb1 hs1
          have halerts1 : db₁.alerts = db.alerts.map (fun b =>
              if b.id == a1.id then { a1 with mitigation_strategy := some s.id }
              else b) := by rw [← hdb1]
          have hstr1 : db₁.strategies = db.strategies := by rw [← hdb1]
          cases hget2 : getOne db₁.alerts (fun b => b.id == i2) with
          | error e =>
            rw [attachMitigation_getOne_error hget2] at h2
            cases h2
          | ok a2 =>
            have ha2 : a2.id = i2 := by simpa using (getOne_ok hget2).2.1
            have hcomp : attachMitigation db₁ i2 (some d) =
                .ok ({ db₁ with alerts := db₁.alerts.map (fun b =>
                        if b.id == a2.id then
                          { a2 with mitigation_strategy := some s.id } else b) },
                     s.id) := by
              rw [attachMitigation_some_eq hget2 d, if_neg hd1, if_neg hd2,
                  hstr1, hfind1]
            rw [hcomp] at h2
            injection h2 with h2
            injection h2 with hdb2 hs2
            have halerts2 : db₂.alerts = db₁.alerts.map (fun b =>
                if b.id == a2.id then
                  { a2 with mitigation_strategy := some s.id } else b) := by
              rw [← hdb2]
            have hstr2 : db₂.strategies = db₁.strategies := by rw [← hdb2]
            have hdesc : s.description = d := by
              simpa using List.find?_some hfind1
            refine ⟨by rw [← hs1, ← hs2], ⟨s, ?_, hs1, hdesc⟩, ?_, hempty⟩
            · rw [hstr2, hstr1]
              exact List.mem_of_find?_eq_some hfind1
            · rw [halerts2, halerts1, ← hs1]
              exact linked_covers ha1 ha2 rfl
        next hfind1 =>
          injection h1 with h1
          injection h1 with hdb1 hs1
          have halerts1 : db₁.alerts = db.alerts.map (fun b =>
              if b.id == a1.id then
                { a1 with mitigation_strategy := some (freshId (db.strategies.map MitigationStrategy.id)) }
              else b) := by rw [← hdb1]
          have hstr1 : db₁.strategies = db.strategies ++
              [{ id := freshId (db.strategies.map MitigationStrategy.id),
                 description := stripWs d }] := by rw [← hdb1]
          have hpnew : ((({ id := freshId (db.strategies.map MitigationStrategy.id),
                            description := stripWs d } : MitigationStrategy)).description == d) = true := by
            simp [ht]
          have hfindb1 : db₁.strategies.find? (fun s => s.description == d) =
              some { id := freshId (db.strategies.map MitigationStrategy.id),
                     description := stripWs d } := by
            rw [hstr1, find?_append_of_none hfind1]
            exact List.find?_cons_of_pos _ hpnew
          cases hget2 : getOne db₁.alerts (fun b => b.id == i2) with
          | error e =>
            rw [attachMitigation_getOne_error hget2] at h2
            cases h2
          | ok a2 =>
            have ha2 : a2.id = i2 := by simpa using (getOne_ok hget2).2.1
            have hcomp : attachMitigation db₁ i2 (some d) =
                .ok ({ db₁ with alerts := db₁.alerts.map (fun b =>
                        if b.id == a2.id then
                          { a2 with mitigation_strategy := some (freshId (db.strategies.map MitigationStrategy.id)) }
                        else b) },
                     freshId (db.strategies.map MitigationStrategy.id)) := by
              rw [attachMitigation_some_eq hget2 d, if_neg hd1, if_neg hd2, hfindb1]
            rw [hcomp] at h2
            injection h2 with h2
            injection h2 with hdb2 hs2
            have halerts2 : db₂.alerts = db₁.alerts.map (fun b =>
                if b.id == a2.id then
                  { a2 with mitigation_strategy := some (freshId (db.strategies.map MitigationStrategy.id)) }
                else b) := by rw [← hdb2]
            have hstr2 : db₂.strategies = db₁.strategies := by rw [← hdb2]
            refine ⟨by rw [← hs1, ← hs2], ?_, ?_, hempty⟩
            · refine ⟨{ id := freshId (db.strategies.map MitigationStrategy.id),
                        description := stripWs d }, ?_, by rw [← hs1], by rw [ht]⟩
              rw [hstr2, hstr1]
              exact List.mem_append_right _ (List.mem_singleton_self _)
            · rw [halerts2, halerts1, ← hs1]
              exact linked_covers ha1 ha2 rfl

/-- C6 amended-claim witness: attaching `Patch firmware` (no surrounding
whitespace) to the two concrete alerts links both to record 1. -/
theorem attach_dedup_spec_witness :
    stripWs "Patch firmware" = "Patch firmware" ∧
    attachMitigation dbTwoAlerts 1 (some "Patch firmware") =
      .ok (dbTwoAlertsAttached1, 1) ∧
    attachMitigation dbTwoAlertsAttached1 2 (some "Patch firmware") =
      .ok (dbTwoAlertsAttached2, 1) ∧
    (1 = 1 ∧
     (∃ s ∈ dbTwoAlertsAttached2.strategies, s.id = 1 ∧
        s.description = "Patch firmware") ∧
     (∀ b ∈ dbTwoAlertsAttached2.alerts, b.id = 1 ∨ b.id = 2 →
        b.mitigation_strategy = some 1) ∧
     attachMitigation dbTwoAlerts 1 (some "") =
       .error (.validationError "Mitigation strategy description is required.")) :=
  ⟨by decide, by decide, by decide,
    attach_dedup_spec dbTwoAlerts dbTwoAlertsAttached1 dbTwoAlertsAttached2
      1 2 1 1 "Patch firmware" (by decide) (by decide) (by decide)⟩

/-! ## C7 -/

/-- With pairwise-distinct keys, at most one element matches a key. -/
lemma length_filter_key_le_one {α β : Type} [DecidableEq β] {f : α → β}
    {l : List α} (h : (l.map f).Nodup) (k : β) :
    (l.filter (fun x => f x == k)).length ≤ 1 := by
  induction l with
  | nil => simp
  | cons a t ih =>
    rw [List.map_cons, List.nodup_cons] at h
    by_cases hak : (f a == k) = true
    · rw [List.filter_cons, if_pos hak]
      have ht0 : t.filter (fun x => f x == k) = [] := by
        rw [List.filter_eq_nil_iff]
        intro x hx hfx
        have hxk : f x = k := by simpa using hfx
        have hfa : f a = k := by simpa using hak
        exact h.1 (hfa ▸ hxk ▸ List.mem_map_of_mem f hx)
      rw [ht0]
      exact le_refl 1
    · rw [List.filter_cons, if_neg hak]
      exact ih h.2

/-- When `getOne` over a pk-unique table fails, no row matches at all. -/
lemma getOne_error_key {α β : Type} [DecidableEq β] {f : α → β} {l : List α}
    {k : β} {e : Err} (hids : (l.map f).Nodup)
    (h : getOne l (fun x => f x == k) = .error e) :
    l.filter (fun x => f x == k) = [] := by
  cases hfil : l.filter (fun x => f x == k) with
  | nil => rfl
  | cons a t =>
    cases t with
    | nil =>
      exfalso
      unfold getOne at h
      rw [hfil] at h
      cases h
    | cons b t2 =>
      exfalso
      have hle := length_filter_key_le_one hids k
      rw [hfil] at hle
      simp at hle

/-- Every surviving row that carries the patched id is the final written
row, after the deactivate-then-apply-body double update. -/
lemma mem_double_update {l : List Endpoint} {ep ep₁ ep₂ : Endpoint}
    (h1 : ep₁.id = ep.id) :
    ∀ e ∈ (l.map (fun x => if x.id == ep.id then ep₁ else x)).map
        (fun x => if x.id == ep.id then ep₂ else x),
      e.id = ep.id → e = ep₂ := by
  intro e he hid
  obtain ⟨x, hx, rfl⟩ := List.mem_map.mp he
  by_cases hxe : (x.id == ep.id) = true
  · rw [if_pos hxe]
  · rw [if_neg hxe] at hid ⊢
    obtain ⟨y, hy, rfl⟩ := List.mem_map.mp hx
    by_cases hye : (y.id == ep.id) = true
    · rw [if_pos hye] at hxe hid ⊢
      exact absurd (by simp [h1]) hxe
    · rw [if_neg hye] at hxe hid ⊢
      exact absurd (by simp [hid]) hye

/-- As `mem_double_update`, for the single update performed before a
serializer validation failure. -/
lemma mem_single_update {l : List Endpoint} {ep ep₁ : Endpoint} :
    ∀ e ∈ l.map (fun x => if x.id == ep.id then ep₁ else x),
      e.id = ep.id → e = ep₁ := by
  intro e he hid
  obtain ⟨x, hx, rfl⟩ := List.mem_map.mp he
  by_cases hxe : (x.id == ep.id) = true
  · rw [if_pos hxe]
  · rw [if_neg hxe] at hid ⊢
    exact absurd (by simp [hid]) hxe

/-- Unfolding of the endpoint PATCH once the lookup succeeded: the row
is deactivated and saved, and then the body is validated and applied. -/
lemma endpointPatch_ok_eq {db : DB} {i : Nat} {ep : Endpoint}
    (hget : getOne db.endpoints (fun x => x.id == i) = .ok ep)
    (body : EndpointPatchBody) :
    endpointPatch db i body =
      (if body.customer.any (fun c => !(db.customers.any (fun cu => cu.id == c))) then
         (.error (.validationError "customer"),
          { db with endpoints := db.endpoints.map (fun x => if x.id == ep.id then { ep with is_active := false } else x) })
       else
         (.ok (applyEndpointPatch { ep with is_active := false } body),
          { db with endpoints := (db.endpoints.map (fun x => if x.id == ep.id then { ep with is_active := false } else x)).map (fun x => if x.id == ep.id then applyEndpointPatch { ep with is_active := false } body else x) })) := by
  unfold endpointPatch
  rw [hget]

/-- C7 is false as stated: a PATCH whose body carries `is_active: true`
leaves the endpoint active — the handler deactivates first but then
applies the request body through the serializer — so an
already-deactivated endpoint is reactivated through the exposed
contract. -/
theorem endpoint_patch_body_reactivates :
    dbInactiveEp.endpoints.map Endpoint.is_active = [false] ∧
    ((endpointPatch dbInactiveEp 1 { is_active := some true }).2.endpoints.map
       Endpoint.is_active = [true]) ∧
    (endpointPatch dbInactiveEp 1 { is_active := some true }).1.isOk = true := by
  exact ⟨by decide, by decide, by decide⟩

/-- C7 (amended): a PATCH whose body does not set `is_active` to true
always leaves the targeted endpoint with `is_active = False` — the
handler unconditionally deactivates before applying the body — but a
PATCH body carrying `is_active: true` that passes validation leaves the
endpoint active, so deactivation is not one-way. -/
theorem endpoint_patch_spec (db : DB) (i : Nat) (body : EndpointPatchBody)
    (hids : (db.endpoints.map Endpoint.id).Nodup) :
    (body.is_active ≠ some true →
       ∀ e ∈ (endpointPatch db i body).2.endpoints, e.id = i →
         e.is_active = false) ∧
    (body.is_active = some true → (endpointPatch db i body).1.isOk = true →
       ∀ e ∈ (endpointPatch db i body).2.endpoints, e.id = i →
         e.is_active = true) := by
  cases hget : getOne db.endpoints (fun x => x.id == i) with
  | error er =>
    have hfil : db.endpoints.filter (fun x => x.id == i) = [] :=
      getOne_error_key hids hget
    have hcomp : endpointPatch db i body = (.error er, db) := by
      unfold endpointPatch
      rw [hget]
    rw [hcomp]
    constructor
    · intro _ e' he' hid
      exfalso
      have hmem : e' ∈ db.endpoints.filter (fun x => x.id == i) :=
        List.mem_filter.mpr ⟨he', by simpa using hid⟩
      rw [hfil] at hmem
      cases hmem
    · intro _ hok
      exact absurd hok (by exact Bool.false_ne_true)
  | ok ep =>
    have hepid : ep.id = i := by simpa using (getOne_ok hget).2.1
    by_cases hbc :
        body.customer.any (fun c => !(db.customers.any (fun cu => cu.id == c))) = true
    · have hcomp : endpointPatch db i body =
          (.error (.validationError "customer"),
           { db with endpoints := db.endpoints.map (fun x => if x.id == ep.id then { ep with is_active := false } else x) }) := by
        rw [endpointPatch_ok_eq hget body, if_pos hbc]
      rw [hcomp]
      constructor
      · intro _ e' he' hid
        have := mem_single_update e' he' (by rw [hid, hepid])
        rw [this]
      · intro _ hok
        exact absurd hok (by exact Bool.false_ne_true)
    · have hcomp : endpointPatch db i body =
          (.ok (applyEndpointPatch { ep with is_active := false } body),
           { db with endpoints := (db.endpoints.map (fun x => if x.id == ep.id then { ep with is_active := false } else x)).map (fun x => if x.id == ep.id then applyEndpointPatch { ep with is_active := false } body else x) }) := by
        rw [endpointPatch_ok_eq hget body, if_neg hbc]
      rw [hcomp]
      constructor
      · intro hbody e' he' hid
        have heq := mem_double_update (by exact rfl) e' he' (by rw [hid, hepid])
        rw [heq]
        unfold applyEndpointPatch
        cases hba : body.is_active with
        | none => rfl
        | some b =>
          cases b with
          | false => rfl
          | true => exact absurd hba hbody
      · intro hbody _ e' he' hid
        have heq := mem_double_update (by exact rfl) e' he' (by rw [hid, hepid])
        rw [heq]
        unfold applyEndpointPatch
        rw [hbody]
        rfl

/-- C7 amended-claim witness: an empty PATCH body on the concrete active
endpoint leaves it deactivated. -/
theorem endpoint_patch_spec_witness :
    (dbIngest.endpoints.map Endpoint.id).Nodup ∧
    (∀ e ∈ (endpointPatch dbIngest 1 {}).2.endpoints, e.id = 1 →
       e.is_active = false) :=
  ⟨by decide,
    (endpoint_patch_spec dbIngest 1 {} (by decide)).1 (by decide)⟩

/-! ## C8 -/

/-- C8: for the concrete customer `Acme` with zero alerts in the window,
PDF generation does not produce a document — the severity chart
reordering `severity_data.pop(1)` raises IndexError on the empty
severity grouping (the same happens whenever fewer than two severity
groups exist). -/
theorem pdf_report_zero_alerts_crashes :
    dashboardAlerts dbIngest 1 0 1000 = [] ∧
    pdfReport dbIngest "Acme" 0 1000 = .error .indexError := by
  exact ⟨by decide, by decide⟩

/-! ## C9 -/

/-- Sum of the per-key counts equals the number of grouped rows. -/
lemma groupCounts_sum {α : Type} [DecidableEq α] (keys : List α) :
    ((groupCounts keys).map Prod.snd).sum = keys.length := by
  unfold groupCounts
  rw [List.map_map]
  exact List.sum_map_count_dedup_eq_length keys

/-- Every reported group has a nonzero count. -/
lemma groupCounts_pos {α : Type} [DecidableEq α] (keys : List α) :
    ∀ p ∈ groupCounts keys, 0 < p.2 := by
  intro p hp
  unfold groupCounts at hp
  obtain ⟨k, hk, rfl⟩ := List.mem_map.mp hp
  simpa using List.count_pos_iff.mpr (List.mem_dedup.mp hk)

/-- C9: over the customer- and window-scoped alert set, the per-status,
per-severity and per-day groupings each partition the set — their counts
sum to the total number of alerts — and no empty group is reported. -/
theorem dashboard_stats_partition (db : DB) (cust after before : Nat) :
    ((status_stats (dashboardAlerts db cust after before)).map Prod.snd).sum =
      (dashboardAlerts db cust after before).length ∧
    ((severity_stats (dashboardAlerts db cust after before)).map Prod.snd).sum =
      (dashboardAlerts db cust after before).length ∧
    ((event_counts (dashboardAlerts db cust after before)).map Prod.snd).sum =
      (dashboardAlerts db cust after before).length ∧
    (∀ p ∈ status_stats (dashboardAlerts db cust after before), p.2 ≠ 0) ∧
    (∀ p ∈ severity_stats (dashboardAlerts db cust after before), p.2 ≠ 0) ∧
    (∀ p ∈ event_counts (dashboardAlerts db cust after before), p.2 ≠ 0) := by
  refine ⟨?_, ?_, ?_, ?_, ?_, ?_⟩
  · unfold status_stats
    rw [groupCounts_sum, List.length_map]
  · unfold severity_stats
    rw [groupCounts_sum, List.length_map]
  · unfold event_counts
    rw [groupCounts_sum, List.length_map]
  · intro p hp
    exact (groupCounts_pos _ p hp).ne'
  · intro p hp
    exact (groupCounts_pos _ p hp).ne'
  · intro p hp
    exact (groupCounts_pos _ p hp).ne'

/-- C9 witness: the partition property instantiated on a concrete
customer, window and state. -/
theorem dashboard_stats_partition_witness :
    ((status_stats (dashboardAlerts dbTPNM 1 0 1000)).map Prod.snd).sum =
      (dashboardAlerts dbTPNM 1 0 1000).length ∧
    ((severity_stats (dashboardAlerts dbTPNM 1 0 1000)).map Prod.snd).sum =
      (dashboardAlerts dbTPNM 1 0 1000).length ∧
    ((event_counts (dashboardAlerts dbTPNM 1 0 1000)).map Prod.snd).sum =
      (dashboardAlerts dbTPNM 1 0 1000).length ∧
    (∀ p ∈ status_stats (dashboardAlerts dbTPNM 1 0 1000), p.2 ≠ 0) ∧
    (∀ p ∈ severity_stats (dashboardAlerts dbTPNM 1 0 1000), p.2 ≠ 0) ∧
    (∀ p ∈ event_counts (dashboardAlerts dbTPNM 1 0 1000), p.2 ≠ 0) :=
  dashboard_stats_partition dbTPNM 1 0 1000

/-! ## C10 -/

/-- The resolve PUT's frame reflexivity. -/
lemma frameAgrees_refl (a : Alert) : Alert.frameAgrees a a := by
  unfold Alert.frameAgrees
  exact ⟨rfl, rfl, rfl, rfl, rfl, rfl, rfl, rfl, rfl, rfl, rfl, rfl, rfl, rfl⟩

/-- C10: a successful customer resolve PUT relates every row of the new
state to a row of the old state agreeing on every field other than
status, resolver and resolved_at; the row is either untouched or has
exactly status set to `resolved`, resolver to the acting user and
resolved_at to the current time. -/
theorem resolve_put_frame (db db' : DB) (alertId cust user now : Nat)
    (h : resolvePut db alertId cust user now = .ok db') :
    ∀ b' ∈ db'.alerts, ∃ b ∈ db.alerts, Alert.frameAgrees b' b ∧
      (b' = b ∨ (b'.status = "resolved" ∧ b'.resolver = some user ∧
                 b'.resolved_at = some now)) := by
  unfold resolvePut at h
  split at h
  next => cases h
  next a hget =>
    injection h with h
    subst h
    intro b' hb'
    obtain ⟨b, hb, rfl⟩ := List.mem_map.mp hb'
    by_cases hbi : (b.id == a.id) = true
    · rw [if_pos hbi]
      refine ⟨a, (List.mem_filter.mp (getOne_ok hget).1).1, ?_, Or.inr ⟨rfl, rfl, rfl⟩⟩
      unfold Alert.frameAgrees
      exact ⟨rfl, rfl, rfl, rfl, rfl, rfl, rfl, rfl, rfl, rfl, rfl, rfl, rfl, rfl⟩
    · rw [if_neg hbi]
      exact ⟨b, hb, frameAgrees_refl b, Or.inl rfl⟩

/-- C10 witness: resolving the concrete TPNM alert. -/
theorem resolve_put_frame_witness :
    resolvePut dbTPNM 1 1 5 99 = .ok dbTPNMresolved ∧
    (∀ b' ∈ dbTPNMresolved.alerts, ∃ b ∈ dbTPNM.alerts, Alert.frameAgrees b' b ∧
      (b' = b ∨ (b'.status = "resolved" ∧ b'.resolver = some 5 ∧
                 b'.resolved_at = some 99))) :=
  ⟨by decide, resolve_put_frame dbTPNM dbTPNMresolved 1 1 5 99 (by decide)⟩

end EMDR
